import Mathlib

/-!
Shallow embedding of `test-key-auth.py`, a Snowflake key-pair
authentication and monitoring-access test script.  Pure functions model
each Python function; exceptions become `Except`/`Option` values; the
process environment, file system, network connection and query outcomes
are explicit parameters; printed output is modelled as lists of message
strings where the claims refer to it.
-/

namespace SnowflakeKeyAuth

/-- Raw file contents are byte lists. -/
abbrev Bytes := List Nat

/-- Substring test over char lists: does `needle` occur in the haystack?
Models Python's `needle in hay`. -/
def listHasSub (needle : List Char) : List Char → Bool
  | [] => needle.isEmpty
  | c :: t => needle.isPrefixOf (c :: t) || listHasSub needle t

/-- Python `needle in hay` on strings. -/
def hasSub (hay needle : String) : Bool :=
  listHasSub needle.toList hay.toList

/-- ASCII lowercasing of one char, as Python's `str.lower` acts on the
ASCII exception messages the script inspects. -/
def lowerChar (c : Char) : Char :=
  if 'A' ≤ c ∧ c ≤ 'Z' then Char.ofNat (c.toNat + 32) else c

/-- Python `s.lower()`. -/
def lowerStr (s : String) : String := String.mk (s.data.map lowerChar)

/-! ## Environment loader (`load_env_file`, lines 11-23) -/

/-- Python `str.strip()` on a char list: drop whitespace at both ends. -/
def stripL (l : List Char) : List Char :=
  ((l.dropWhile Char.isWhitespace).reverse.dropWhile Char.isWhitespace).reverse

/-- Python `str.strip()` on a string. -/
def pythonStrip (s : String) : String := String.mk (stripL s.data)

/-- Python `line.split('=', 1)`: split at the first `'='`; `none` when the
line has no `'='` (so that `'=' in line` is `(splitFirstEq l).isSome`). -/
def splitFirstEq : List Char → Option (List Char × List Char)
  | [] => none
  | c :: cs =>
    if c = '=' then some ([], cs)
    else
      match splitFirstEq cs with
      | some (k, v) => some (c :: k, v)
      | none => none

/-- The process environment: a partial map from names to values. -/
abbrev EnvMap := List Char → Option (List Char)

/-- `os.environ[k] = v`: overwrite `k`, everything else unchanged. -/
def envSet (env : EnvMap) (k v : List Char) : EnvMap :=
  fun x => if x = k then some v else env x

/-- One iteration of the `for line in f` loop of `load_env_file`
(lines 16-20): strip the line; when it is non-empty, not a comment and
contains `'='`, split at the first `'='`, strip key and value and set them
in the environment; otherwise leave the environment unchanged. -/
def procLine (env : EnvMap) (line : List Char) : EnvMap :=
  let l := stripL line
  if l ≠ [] ∧ l.head? ≠ some '#' then
    match splitFirstEq l with
    | some (k, v) => envSet env (stripL k) (stripL v)
    | none => env
  else env

/-- `load_env_file` (lines 11-23): if `.env` exists, fold its lines into
the environment; otherwise leave it untouched and only log a skip line.
Returns the resulting environment and the log messages. -/
def load_env_file (envFileExists : Bool) (lines : List (List Char))
    (env : EnvMap) : EnvMap × List String :=
  if envFileExists then
    (lines.foldl procLine env,
     ["Loading environment variables from .env", "Environment variables loaded"])
  else
    (env, ["No .env file found, using interactive input or defaults"])

/-! ## Configuration resolver (`get_configuration`, lines 302-358) -/

/-- The four required connection settings plus nothing else the claims
need.  Each is `Option String`: `none` models an unset variable
(Python `os.getenv` returning `None`). -/
structure Config where
  account : Option String
  user : Option String
  role : Option String
  warehouse : Option String
deriving DecidableEq, Repr

/-- Python truthiness of an optional string: `None` and `""` are falsy. -/
def truthy : Option String → Bool
  | none => false
  | some s => !s.isEmpty

/-- Python `str(x)` on an optional string (`str(None) = "None"`). -/
def strOf : Option String → String
  | none => "None"
  | some s => s

/-- One `missing` check of lines 338-345:
`not FIELD or placeholder in str(FIELD)`. -/
def fieldMissing (placeholder : String) (v : Option String) : Bool :=
  !truthy v || hasSub (strOf v) placeholder

/-- `env_loaded` (line 307): all four fields already truthy. -/
def envLoadedCfg (c : Config) : Bool :=
  truthy c.account && truthy c.user && truthy c.role && truthy c.warehouse

/-- Lines 322-334: strip the interactive input; a non-empty answer
overwrites the field, a blank one keeps the existing value. -/
def mergeField (old : Option String) (inp : String) : Option String :=
  let v := pythonStrip inp
  if v.isEmpty then old else some v

/-- The configuration after the four interactive answers of
lines 322-334 have been merged in. -/
def mergeConfig (c : Config) (ia iu ir iw : String) : Config :=
  { account := mergeField c.account ia
    user := mergeField c.user iu
    role := mergeField c.role ir
    warehouse := mergeField c.warehouse iw }

/-- The `missing` list of lines 337-345. -/
def missingOf (c1 : Config) : List String :=
  (if fieldMissing "your-actual" c1.account then ["ACCOUNT"] else []) ++
  (if fieldMissing "your_actual" c1.user then ["USER"] else []) ++
  (if fieldMissing "your_actual" c1.role then ["ROLE"] else []) ++
  (if fieldMissing "your_actual" c1.warehouse then ["WAREHOUSE"] else [])

/-- `get_configuration` (lines 302-358).  Inputs: the globals as set from
the environment and the four raw interactive answers (read only on the
prompt path).  Returns the success flag, the merged configuration and the
list of reported missing field names (empty when validation passes). -/
def get_configuration (c : Config) (ia iu ir iw : String) :
    Bool × Config × List String :=
  if envLoadedCfg c then
    (true, c, [])
  else
    let c1 := mergeConfig c ia iu ir iw
    let missing := missingOf c1
    if missing ≠ [] then (false, c1, missing) else (true, c1, [])

/-! ## Key loader (`load_private_key`, lines 38-89) -/

/-- The Python exception classes the loader distinguishes. -/
inductive PyExc where
  | fileNotFound
  | valueError (msg : String)
  | otherError (msg : String)
deriving DecidableEq, Repr

/-- The inner try of lines 57-69: attempt DER decoding; exactly on a
`ValueError` fall back to the PEM attempt; every other outcome of the DER
attempt (success or a different exception) stands as is. -/
def decodeSeq {K : Type} (der pem : Except PyExc K) : Except PyExc K :=
  match der with
  | .ok k => .ok k
  | .error (.valueError _) => pem
  | .error e => .error e

/-- `open(path, 'rb').read()` against an explicit file system: raises
`FileNotFoundError` when the file is absent. -/
def openRead (fs : String → Option Bytes) (path : String) :
    Except PyExc Bytes :=
  match fs path with
  | some b => .ok b
  | none => .error .fileNotFound

/-- The `except` clauses of lines 74-89, in source order: a
`FileNotFoundError` gets the update-path hint; a `ValueError` whose
lowercased message mentions "password" gets the two password lines, any
other `ValueError` the invalid-format line; any other exception the
generic error line.  The key result is `none` in every case. -/
def handleExc {K : Type} (path : String) (e : PyExc) : Option K × List String :=
  match e with
  | .fileNotFound =>
    (none, ["Key file not found: " ++ path,
            "Please update PRIVATE_KEY_PATH with your actual key file path"])
  | .valueError m =>
    if hasSub (lowerStr m) "password" then
      (none, ["Key requires password but none provided",
              "Update PRIVATE_KEY_PASSWORD with your key password"])
    else
      (none, ["Invalid key format: " ++ m])
  | .otherError m =>
    (none, ["Error loading key: " ++ m])

/-- The messages printed before decoding starts (lines 41, 48, 51). -/
def introMsgs (path : String) : List String :=
  ["Checking for private key file: " ++ path,
   "Key file found",
   "Loading private key from: " ++ path]

/-- `load_private_key` (lines 38-89).  `fs` is the file system, `pw` the
optional key password, `der`/`pem` the two library decoders (outcome as a
function of the file bytes and the password).  Returns the decoded key
(`none` on any failure) and the printed messages (emoji prefixes of the
source's prints omitted). -/
def load_private_key {K : Type} (fs : String → Option Bytes) (path : String)
    (pw : Option String) (der pem : Bytes → Option String → Except PyExc K) :
    Option K × List String :=
  if (fs path).isSome then
    match openRead fs path with
    | .error e =>
      let r := handleExc (K := K) path e
      (r.1, introMsgs path ++ r.2)
    | .ok keyData =>
      match decodeSeq (der keyData pw) (pem keyData pw) with
      | .ok k => (some k, introMsgs path ++ ["Private key loaded successfully"])
      | .error e =>
        let r := handleExc (K := K) path e
        (r.1, introMsgs path ++ r.2)
  else
    (none, ["Checking for private key file: " ++ path,
            "Key file not found: " ++ path,
            "Make sure rsa_key.p8 is in the same directory as this script"])

/-- The exception caught by the outer `try` of `load_private_key`, if
any: the same control flow as `load_private_key`, projected onto the
exception that reaches the `except` clauses (`none` when no exception is
raised or the loader returned early at the existence check). -/
def loadBranch {K : Type} (fs : String → Option Bytes) (path : String)
    (pw : Option String) (der pem : Bytes → Option String → Except PyExc K) :
    Option PyExc :=
  if (fs path).isSome then
    match openRead fs path with
    | .error e => some e
    | .ok keyData =>
      match decodeSeq (der keyData pw) (pem keyData pw) with
      | .ok _ => none
      | .error e => some e
  else none

/-! ## Query groups (`test_monitoring_access` lines 141-237,
`test_datadog_requirements` lines 239-300)

A query outcome is `Except String Nat`: `.ok` with a result value, or
`.error` with the exception message. -/

/-- Boolean success test for a query outcome. -/
def isOkE {ε α : Type} : Except ε α → Bool
  | .ok _ => true
  | .error _ => false

/-- The single try block of `test_monitoring_access`: run the telemetry
queries in order; the first exception aborts the rest of the block, is
caught by the one handler (line 233) and turns the group flag false.
Returns the flag, the number of queries actually executed and the printed
messages. -/
def runMonitoring : List (Except String Nat) → Bool × Nat × List String
  | [] => (true, 0, [])
  | q :: rest =>
    match q with
    | .error m => (false, 1, ["Monitoring access test failed: " ++ m])
    | .ok n =>
      let r := runMonitoring rest
      (r.1, r.2.1 + 1, ("monitoring result: " ++ toString n) :: r.2.2)

/-- `test_monitoring_access` on the outcomes of its five fixed telemetry
queries. -/
def test_monitoring_access (qs : List (Except String Nat)) :
    Bool × Nat × List String :=
  runMonitoring qs

/-- The line `runMonitoring` prints for one query outcome. -/
def monMsgOf : Except String Nat → String
  | .ok n => "monitoring result: " ++ toString n
  | .error m => "Monitoring access test failed: " ++ m

/-- The printed line for one requirement probe: its label with its own
row count on success (line 291), or its label with the exception message
on failure (line 293). -/
def reportOf (t : String × Except String Nat) : String :=
  match t.2 with
  | .ok n => t.1 ++ ": " ++ toString n ++ " records available"
  | .error m => t.1 ++ ": Failed - " ++ m

/-- One iteration of the `for test in requirements_tests` loop
(lines 287-294): the per-probe try catches the probe's exception, prints
its label and clears `all_passed`; a successful probe prints its own
count and leaves the flag alone. -/
def reqStep (acc : Bool × List String) (t : String × Except String Nat) :
    Bool × List String :=
  match t.2 with
  | .ok _ => (acc.1, acc.2 ++ [reportOf t])
  | .error _ => (false, acc.2 ++ [reportOf t])

/-- `test_datadog_requirements` on its labelled probe outcomes: fold the
loop over the list, starting from `all_passed = True`. -/
def test_datadog_requirements (qs : List (String × Except String Nat)) :
    Bool × List String :=
  qs.foldl reqStep (true, [])

/-! ## `main` (lines 360-423) -/

/-- Observable resource events of one run. -/
inductive Ev where
  | connectAttempt
  | connOpen
  | cursorClose
  | connClose
deriving DecidableEq, Repr

/-- Everything one run of the script depends on: the initial globals, the
interactive answers, the file system, the key decoders, the connector and
the outcomes of the queries on an open connection.  `K` is the decoded
key type, `C` the connection type. -/
structure MainWorld (K C : Type) where
  cfg : Config
  inA : String
  inU : String
  inR : String
  inW : String
  fs : String → Option Bytes
  keyPath : String
  keyPw : Option String
  der : Bytes → Option String → Except PyExc K
  pem : Bytes → Option String → Except PyExc K
  connect : Config → K → Option C
  basic : C → Option (String × String × String × String)
  monQ : C → List (Except String Nat)
  reqQ : C → List (String × Except String Nat)

/-- `main` (lines 360-418): configuration, key load, connect, basic
query, then both query groups; returns the boolean result and the
resource events in order.  A failed stage returns `False` immediately;
after the basic query fails the connection is closed (line 384); on the
full path cursor and connection are closed (lines 390-391). -/
def main {K C : Type} (w : MainWorld K C) : Bool × List Ev :=
  let gc := get_configuration w.cfg w.inA w.inU w.inR w.inW
  if gc.1 then
    match (load_private_key w.fs w.keyPath w.keyPw w.der w.pem).1 with
    | none => (false, [])
    | some k =>
      match w.connect gc.2.1 k with
      | none => (false, [.connectAttempt])
      | some conn =>
        match w.basic conn with
        | none => (false, [.connectAttempt, .connOpen, .connClose])
        | some _ =>
          let monOk := (test_monitoring_access (w.monQ conn)).1
          let reqOk := (test_datadog_requirements (w.reqQ conn)).1
          (monOk && reqOk,
           [.connectAttempt, .connOpen, .cursorClose, .connClose])
  else (false, [])

/-- `sys.exit(0 if success else 1)` (line 423). -/
def mainExit {K C : Type} (w : MainWorld K C) : Nat :=
  if (main w).1 then 0 else 1

/-! ### Derived per-stage views of a run, used to state the exit-code
claim.  Each re-evaluates the stage on the same world. -/

/-- The configuration the run connects with (the merged globals). -/
def mergedCfg {K C : Type} (w : MainWorld K C) : Config :=
  (get_configuration w.cfg w.inA w.inU w.inR w.inW).2.1

/-- Did configuration resolution succeed? -/
def stageCfgOk {K C : Type} (w : MainWorld K C) : Bool :=
  (get_configuration w.cfg w.inA w.inU w.inR w.inW).1

/-- The key the loader returns on this world. -/
def stageKey {K C : Type} (w : MainWorld K C) : Option K :=
  (load_private_key w.fs w.keyPath w.keyPw w.der w.pem).1

/-- The connection the run obtains, when it reaches the connector. -/
def stageConn {K C : Type} (w : MainWorld K C) : Option C :=
  (stageKey w).bind (fun k => w.connect (mergedCfg w) k)

/-- The basic identity query's result, when a connection exists. -/
def stageBasic {K C : Type} (w : MainWorld K C) :
    Option (String × String × String × String) :=
  (stageConn w).bind w.basic

/-- The monitoring-access flag of the run (false when never reached). -/
def monFlag {K C : Type} (w : MainWorld K C) : Bool :=
  match stageConn w with
  | some c => (test_monitoring_access (w.monQ c)).1
  | none => false

/-- The requirements flag of the run (false when never reached). -/
def reqFlag {K C : Type} (w : MainWorld K C) : Bool :=
  match stageConn w with
  | some c => (test_datadog_requirements (w.reqQ c)).1
  | none => false

/-! ## Concrete fixtures (used to instantiate theorems on closed runs) -/

/-- A configuration fully provided by the environment. -/
def okConfig : Config :=
  { account := some "abc123.snowflakecomputing.com"
    user := some "DATADOG_USER"
    role := some "DATADOG_ROLE"
    warehouse := some "COMPUTE_WH" }

/-- A configuration whose four fields still hold the script's own
placeholder strings. -/
def cfgPlaceholder : Config :=
  { account := some "your-actual-account.snowflakecomputing.com"
    user := some "your_actual_username"
    role := some "your_actual_role"
    warehouse := some "your_actual_warehouse" }

/-- A world in which every stage succeeds. -/
def wAllOk : MainWorld Nat Nat :=
  { cfg := okConfig
    inA := ""
    inU := ""
    inR := ""
    inW := ""
    fs := fun _ => some [48, 130, 2, 1]
    keyPath := "rsa_key.p8"
    keyPw := none
    der := fun _ _ => .ok 7
    pem := fun _ _ => .ok 7
    connect := fun _ _ => some 1
    basic := fun _ => some ("9.0.1", "DATADOG_USER", "DATADOG_ROLE", "COMPUTE_WH")
    monQ := fun _ => [.ok 120, .ok 2, .ok 7, .ok 4, .ok 9]
    reqQ := fun _ =>
      [("1.A - CPU & Memory Utilization", .ok 3),
       ("1.B - Storage Utilization", .ok 1),
       ("1.C - Query Execution Time", .ok 12),
       ("2.A - Data Loading Rate", .ok 0),
       ("2.B - Warehouse Usage", .ok 5)] }

/-- The same world with the key file missing. -/
def wNoKey : MainWorld Nat Nat :=
  { wAllOk with fs := fun _ => none }

/-- Requirement probe outcomes with exactly one failing probe. -/
def reqsOneFail : List (String × Except String Nat) :=
  [("1.A - CPU & Memory Utilization", .ok 3),
   ("1.B - Storage Utilization", .error "Object does not exist or not authorized"),
   ("1.C - Query Execution Time", .ok 12),
   ("2.A - Data Loading Rate", .ok 0),
   ("2.B - Warehouse Usage", .ok 5)]

/-! ## Lemmas about the environment loader -/

theorem splitFirstEq_isSome_iff (l : List Char) :
    (splitFirstEq l).isSome = true ↔ '=' ∈ l := by
  induction l with
  | nil => simp [splitFirstEq]
  | cons c cs ih =>
    by_cases hc : c = '='
    · subst hc; simp [splitFirstEq]
    · rw [splitFirstEq]
      simp only [if_neg hc]
      cases h : splitFirstEq cs with
      | none =>
        simp [h] at ih ⊢
        exact ⟨fun he => hc he.symm, ih⟩
      | some kv => simp [h] at ih ⊢; simp [hc, ih]

theorem splitFirstEq_spec (l k v : List Char)
    (h : splitFirstEq l = some (k, v)) :
    l = k ++ '=' :: v ∧ '=' ∉ k := by
  induction l generalizing k v with
  | nil => simp [splitFirstEq] at h
  | cons c cs ih =>
    by_cases hc : c = '='
    · subst hc
      simp [splitFirstEq] at h
      obtain ⟨hk, hv⟩ := h
      subst hk; subst hv; simp
    · rw [splitFirstEq, if_neg hc] at h
      cases hcs : splitFirstEq cs with
      | none => simp [hcs] at h
      | some kv =>
        obtain ⟨k', v'⟩ := kv
        simp [hcs] at h
        obtain ⟨hk, hv⟩ := h
        subst hk; subst hv
        obtain ⟨h1, h2⟩ := ih k' v' hcs
        constructor
        · simp [h1]
        · simp [h2, Ne.symm hc]

theorem splitFirstEq_eq_none (l : List Char) (h : '=' ∉ l) :
    splitFirstEq l = none := by
  cases hs : splitFirstEq l with
  | none => rfl
  | some kv => exact absurd ((splitFirstEq_isSome_iff l).1 (by simp [hs])) h

theorem procLine_skip_empty (env : EnvMap) (line : List Char)
    (h : stripL line = []) : procLine env line = env := by
  simp [procLine, h]

theorem procLine_skip_comment (env : EnvMap) (line : List Char)
    (h : (stripL line).head? = some '#') : procLine env line = env := by
  simp only [procLine]
  rw [if_neg]
  intro hc
  exact hc.2 h

theorem procLine_skip_no_eq (env : EnvMap) (line : List Char)
    (h : '=' ∉ stripL line) : procLine env line = env := by
  have hs : splitFirstEq (stripL line) = none := splitFirstEq_eq_none _ h
  simp [procLine, hs]

theorem procLine_sets (env : EnvMap) (line k v : List Char)
    (hh : (stripL line).head? ≠ some '#')
    (hsp : splitFirstEq (stripL line) = some (k, v)) (x : List Char) :
    procLine env line x = if x = stripL k then some (stripL v) else env x := by
  have hne : stripL line ≠ [] := by
    intro h0
    rw [h0] at hsp
    simp [splitFirstEq] at hsp
  simp only [procLine]
  rw [if_pos ⟨hne, hh⟩, hsp]
  simp [envSet]

/-- C7: the environment loader ignores empty lines and lines starting
with the comment marker, sets every parsed `KEY=VALUE` pair into the
environment overwriting any existing value for that key, and when the
`.env` file is absent it changes nothing and merely logs that it was
skipped. -/
theorem env_loader_behavior :
    (∀ (env : EnvMap) (line : List Char),
        stripL line = [] → procLine env line = env) ∧
    (∀ (env : EnvMap) (line : List Char),
        (stripL line).head? = some '#' → procLine env line = env) ∧
    (∀ (env : EnvMap) (line k v : List Char),
        (stripL line).head? ≠ some '#' →
        splitFirstEq (stripL line) = some (k, v) →
        ∀ x, procLine env line x =
          if x = stripL k then some (stripL v) else env x) ∧
    (∀ (lines : List (List Char)) (env : EnvMap),
        load_env_file true lines env =
          (lines.foldl procLine env,
           ["Loading environment variables from .env",
            "Environment variables loaded"])) ∧
    (∀ (lines : List (List Char)) (env : EnvMap),
        load_env_file false lines env =
          (env, ["No .env file found, using interactive input or defaults"])) :=
  ⟨procLine_skip_empty, procLine_skip_comment,
   fun env line k v hh hsp x => procLine_sets env line k v hh hsp x,
   fun _ _ => rfl, fun _ _ => rfl⟩

theorem env_loader_witness :
    procLine (fun _ => none) [' '] = (fun _ => none) ∧
    procLine (fun _ => none) ['#', 'a', '=', 'b'] = (fun _ => none) ∧
    procLine (fun _ => some ['0']) [' ', 'A', '=', ' ', 'b'] ['A'] =
      some ['b'] := by
  refine ⟨env_loader_behavior.1 _ _ (by decide),
          env_loader_behavior.2.1 _ _ (by decide), ?_⟩
  have h := env_loader_behavior.2.2.1 (fun _ => some ['0'])
      [' ', 'A', '=', ' ', 'b'] ['A'] [' ', 'b']
      (by decide) (by decide) ['A']
  simpa using h

/-- C10: a non-empty, non-comment line without `'='` is silently
skipped; an accepted line is split at the first `'='` only (the key is
the `'='`-free part before the first `'='`, the value everything after
it), and both key and value are stripped before being set. -/
theorem env_line_parsing :
    (∀ (env : EnvMap) (line : List Char),
        stripL line ≠ [] → (stripL line).head? ≠ some '#' →
        '=' ∉ stripL line → procLine env line = env) ∧
    (∀ (line k v : List Char), splitFirstEq (stripL line) = some (k, v) →
        stripL line = k ++ '=' :: v ∧ '=' ∉ k) ∧
    (∀ (env : EnvMap) (line k v : List Char),
        (stripL line).head? ≠ some '#' →
        splitFirstEq (stripL line) = some (k, v) →
        procLine env line (stripL k) = some (stripL v)) := by
  refine ⟨fun env line _ _ h => procLine_skip_no_eq env line h,
          fun line k v h => splitFirstEq_spec _ _ _ h,
          fun env line k v hh hsp => ?_⟩
  rw [procLine_sets env line k v hh hsp (stripL k)]
  simp

theorem env_line_parsing_witness :
    procLine (fun _ => some ['q']) ['a', 'b'] = (fun _ => some ['q']) ∧
    procLine (fun _ => none) ['k', '=', '=', 'v'] ['k'] = some ['=', 'v'] := by
  refine ⟨env_line_parsing.1 _ _ (by decide) (by decide) (by decide), ?_⟩
  have h := env_line_parsing.2.2 (fun _ => none) ['k', '=', '=', 'v']
      ['k'] ['=', 'v'] (by decide) (by decide)
  simpa using h

/-! ## Lemmas about the key loader -/

theorem handleExc_fst {K : Type} (path : String) (e : PyExc) :
    (handleExc (K := K) path e).1 = none := by
  cases e with
  | fileNotFound => rfl
  | valueError m =>
    simp only [handleExc]
    split <;> rfl
  | otherError m => rfl

theorem openRead_of_some {fs : String → Option Bytes} {path : String}
    {data : Bytes} (h : fs path = some data) :
    openRead fs path = Except.ok data := by
  simp [openRead, h]

/-- C5: the loader attempts DER decoding first; exactly a format error
(`ValueError`) from that attempt triggers the PEM fallback, any other
outcome of the DER attempt stands; a password-mentioning `ValueError`
yields the password-specific two-line report, distinct from the generic
invalid-format line; any other exception is reported with its own
message; every handled exception leaves the key result empty. -/
theorem key_decode_fallback_and_messages :
    (∀ (K : Type) (k : K) (p : Except PyExc K), decodeSeq (.ok k) p = .ok k) ∧
    (∀ (K : Type) (m : String) (p : Except PyExc K),
        decodeSeq (.error (.valueError m)) p = p) ∧
    (∀ (K : Type) (e : PyExc) (p : Except PyExc K),
        (∀ m, e ≠ .valueError m) → decodeSeq (.error e) p = .error e) ∧
    (∀ (K : Type) (path m : String), hasSub (lowerStr m) "password" = true →
        handleExc (K := K) path (.valueError m) =
          (none, ["Key requires password but none provided",
                  "Update PRIVATE_KEY_PASSWORD with your key password"])) ∧
    (∀ (K : Type) (path m : String), hasSub (lowerStr m) "password" = false →
        handleExc (K := K) path (.valueError m) =
          (none, ["Invalid key format: " ++ m])) ∧
    (∀ (K : Type) (path m : String),
        handleExc (K := K) path (.otherError m) =
          (none, ["Error loading key: " ++ m])) ∧
    (∀ m : String,
        (["Key requires password but none provided",
          "Update PRIVATE_KEY_PASSWORD with your key password"] : List String) ≠
          ["Invalid key format: " ++ m]) ∧
    (∀ (K : Type) (path : String) (e : PyExc),
        (handleExc (K := K) path e).1 = none) ∧
    (∀ (K : Type) (fs : String → Option Bytes) (path : String)
        (pw : Option String) (der pem : Bytes → Option String → Except PyExc K)
        (data : Bytes) (e : PyExc),
        fs path = some data →
        decodeSeq (der data pw) (pem data pw) = Except.error e →
        load_private_key fs path pw der pem =
          (none, introMsgs path ++ (handleExc (K := K) path e).2)) ∧
    (∀ (K : Type) (fs : String → Option Bytes) (path : String)
        (pw : Option String) (der pem : Bytes → Option String → Except PyExc K)
        (data : Bytes) (k : K),
        fs path = some data →
        decodeSeq (der data pw) (pem data pw) = Except.ok k →
        load_private_key fs path pw der pem =
          (some k, introMsgs path ++ ["Private key loaded successfully"])) := by
  refine ⟨fun K k p => rfl, fun K m p => rfl, ?_, ?_, ?_, fun K path m => rfl,
          ?_, fun K path e => handleExc_fst path e, ?_, ?_⟩
  · intro K e p h
    cases e with
    | fileNotFound => rfl
    | valueError m => exact absurd rfl (h m)
    | otherError m => rfl
  · intro K path m h
    simp [handleExc, h]
  · intro K path m h
    simp [handleExc, h]
  · intro m
    simp
  · intro K fs path pw der pem data e hfs hdec
    have h1 : (fs path).isSome = true := by rw [hfs]; rfl
    simp [load_private_key, h1, openRead_of_some hfs, hdec, handleExc_fst]
  · intro K fs path pw der pem data k hfs hdec
    have h1 : (fs path).isSome = true := by rw [hfs]; rfl
    simp [load_private_key, h1, openRead_of_some hfs, hdec]

theorem key_decode_fallback_witness :
    decodeSeq (.ok (5 : Nat)) (.error (.valueError "x")) = .ok 5 ∧
    decodeSeq (K := Nat) (.error (.valueError "bad der"))
      (.error (.otherError "pem boom")) = .error (.otherError "pem boom") ∧
    decodeSeq (K := Nat) (.error (.otherError "boom")) (.ok 1) =
      .error (.otherError "boom") ∧
    handleExc (K := Nat) "rsa_key.p8"
      (.valueError "Password was not given but private key is encrypted") =
      (none, ["Key requires password but none provided",
              "Update PRIVATE_KEY_PASSWORD with your key password"]) ∧
    handleExc (K := Nat) "rsa_key.p8"
      (.valueError "Could not deserialize key data") =
      (none, ["Invalid key format: Could not deserialize key data"]) ∧
    load_private_key (K := Nat) (fun _ => some [48, 130]) "rsa_key.p8" none
      (fun _ _ => .error (.valueError "bad der"))
      (fun _ _ => .error (.otherError "boom")) =
      (none, introMsgs "rsa_key.p8" ++ ["Error loading key: boom"]) := by
  refine ⟨key_decode_fallback_and_messages.1 Nat 5 _,
          key_decode_fallback_and_messages.2.1 Nat "bad der" _,
          key_decode_fallback_and_messages.2.2.1 Nat (.otherError "boom") _
            (fun m h => PyExc.noConfusion h),
          key_decode_fallback_and_messages.2.2.2.1 Nat "rsa_key.p8" _ (by decide),
          key_decode_fallback_and_messages.2.2.2.2.1 Nat "rsa_key.p8" _ (by decide),
          ?_⟩
  have h := key_decode_fallback_and_messages.2.2.2.2.2.2.2.2.1 Nat
      (fun _ => some [48, 130]) "rsa_key.p8" none
      (fun _ _ => .error (.valueError "bad der"))
      (fun _ _ => .error (.otherError "boom"))
      [48, 130] (.otherError "boom") rfl rfl
  simpa [handleExc] using h

/-- C6: when the key file does not exist the loader reports the
file-not-found condition and returns no key, and the whole run returns
failure with exit status 1 without the connector being invoked. -/
theorem missing_key_file_aborts :
    (∀ (K : Type) (fs : String → Option Bytes) (path : String)
        (pw : Option String) (der pem : Bytes → Option String → Except PyExc K),
        fs path = none →
        load_private_key fs path pw der pem =
          (none, ["Checking for private key file: " ++ path,
                  "Key file not found: " ++ path,
                  "Make sure rsa_key.p8 is in the same directory as this script"])) ∧
    (∀ (K C : Type) (w : MainWorld K C), w.fs w.keyPath = none →
        (main w).1 = false ∧ mainExit w = 1 ∧
        Ev.connectAttempt ∉ (main w).2) := by
  constructor
  · intro K fs path pw der pem h
    simp [load_private_key, h]
  · intro K C w h
    have hk : (load_private_key w.fs w.keyPath w.keyPw w.der w.pem).1 = none := by
      simp [load_private_key, h]
    by_cases hgc : (get_configuration w.cfg w.inA w.inU w.inR w.inW).1 = true
    · refine ⟨?_, ?_, ?_⟩ <;> simp [main, mainExit, hgc, hk]
    · refine ⟨?_, ?_, ?_⟩ <;> simp [main, mainExit, hgc]

theorem missing_key_file_witness :
    (main wNoKey).1 = false ∧ mainExit wNoKey = 1 ∧
    Ev.connectAttempt ∉ (main wNoKey).2 :=
  missing_key_file_aborts.2 Nat Nat wNoKey rfl

/-- C9: the `FileNotFoundError` handler of the loader is unreachable:
once the existence check has passed (and the file system is unchanged),
the open cannot raise `FileNotFoundError`, so as long as neither decoder
raises one, no run of the loader dispatches on that exception; the third
conjunct records that `loadBranch` is exactly the exception the loader's
handlers dispatch on. -/
theorem fnf_branch_unreachable :
    (∀ (fs : String → Option Bytes) (path : String),
        (fs path).isSome = true →
        openRead fs path ≠ Except.error PyExc.fileNotFound) ∧
    (∀ (K : Type) (fs : String → Option Bytes) (path : String)
        (pw : Option String) (der pem : Bytes → Option String → Except PyExc K),
        (∀ d p, der d p ≠ Except.error PyExc.fileNotFound) →
        (∀ d p, pem d p ≠ Except.error PyExc.fileNotFound) →
        loadBranch fs path pw der pem ≠ some PyExc.fileNotFound) ∧
    (∀ (K : Type) (fs : String → Option Bytes) (path : String)
        (pw : Option String) (der pem : Bytes → Option String → Except PyExc K)
        (e : PyExc),
        loadBranch fs path pw der pem = some e →
        load_private_key fs path pw der pem =
          ((handleExc (K := K) path e).1,
           introMsgs path ++ (handleExc (K := K) path e).2)) := by
  refine ⟨?_, ?_, ?_⟩
  · intro fs path h hcontra
    cases hfs : fs path with
    | none => rw [hfs] at h; simp at h
    | some b => simp [openRead, hfs] at hcontra
  · intro K fs path pw der pem hder hpem hcontra
    cases hfs : fs path with
    | none => simp [loadBranch, hfs] at hcontra
    | some data =>
      have h1 : (fs path).isSome = true := by rw [hfs]; rfl
      simp [loadBranch, h1, openRead_of_some hfs] at hcontra
      cases hd : der data pw with
      | ok k => simp [decodeSeq, hd] at hcontra
      | error e =>
        cases e with
        | fileNotFound => exact hder data pw hd
        | valueError m =>
          rw [hd] at hcontra
          simp [decodeSeq] at hcontra
          cases hp : pem data pw with
          | ok k => simp [hp] at hcontra
          | error e' =>
            rw [hp] at hcontra
            simp at hcontra
            subst hcontra
            exact hpem data pw hp
        | otherError m => simp [decodeSeq, hd] at hcontra
  · intro K fs path pw der pem e hbr
    cases hfs : fs path with
    | none => simp [loadBranch, hfs] at hbr
    | some data =>
      have h1 : (fs path).isSome = true := by rw [hfs]; rfl
      simp [loadBranch, h1, openRead_of_some hfs] at hbr
      cases hdec : decodeSeq (der data pw) (pem data pw) with
      | ok k => simp [hdec] at hbr
      | error e' =>
        rw [hdec] at hbr
        simp at hbr
        subst hbr
        simp [load_private_key, h1, openRead_of_some hfs, hdec]

theorem fnf_branch_witness :
    openRead (fun _ => some [48, 130]) "rsa_key.p8" ≠
      Except.error PyExc.fileNotFound ∧
    loadBranch (K := Nat) (fun _ => some [48, 130]) "rsa_key.p8" none
      (fun _ _ => .error (.valueError "bad der"))
      (fun _ _ => .error (.valueError "bad pem")) ≠ some PyExc.fileNotFound :=
  ⟨fnf_branch_unreachable.1 (fun _ => some [48, 130]) "rsa_key.p8" rfl,
   fnf_branch_unreachable.2.1 Nat (fun _ => some [48, 130]) "rsa_key.p8" none
     (fun _ _ => .error (.valueError "bad der"))
     (fun _ _ => .error (.valueError "bad pem"))
     (fun _ _ h => PyExc.noConfusion (Except.error.inj h))
     (fun _ _ h => PyExc.noConfusion (Except.error.inj h))⟩

/-! ## Lemmas about the query groups -/

theorem reqFold_spec (qs : List (String × Except String Nat)) (b : Bool)
    (ms : List String) :
    qs.foldl reqStep (b, ms) =
      (b && qs.all (fun t => isOkE t.2), ms ++ qs.map reportOf) := by
  induction qs generalizing b ms with
  | nil => simp
  | cons t rest ih =>
    cases ht : t.2 with
    | ok n =>
      simp only [List.foldl_cons, reqStep, ht]
      rw [ih]
      simp [List.all_cons, isOkE, ht, reportOf]
    | error m =>
      simp only [List.foldl_cons, reqStep, ht]
      rw [ih]
      simp [List.all_cons, isOkE, ht, reportOf]

theorem req_spec (qs : List (String × Except String Nat)) :
    test_datadog_requirements qs =
      (qs.all (fun t => isOkE t.2), qs.map reportOf) := by
  unfold test_datadog_requirements
  rw [reqFold_spec]
  simp

theorem runMonitoring_first_error (pre post : List (Except String Nat))
    (m : String) (h : ∀ q ∈ pre, isOkE q = true) :
    runMonitoring (pre ++ Except.error m :: post) =
      (false, pre.length + 1,
       pre.map monMsgOf ++ ["Monitoring access test failed: " ++ m]) := by
  induction pre with
  | nil => simp [runMonitoring, monMsgOf]
  | cons q rest ih =>
    cases q with
    | error m' =>
      have hh := h (Except.error m') (by simp)
      simp [isOkE] at hh
    | ok n =>
      have ih' := ih (fun x hx => h x (by simp [hx]))
      simp [runMonitoring, monMsgOf, ih']

/-- C3: with a requirement probe raising an error (exactly one of the
five), the requirements group flag is false while all five probes are
executed and each reports its own result. -/
theorem requirements_single_failure_isolated
    (qs : List (String × Except String Nat))
    (h5 : qs.length = 5)
    (h1 : qs.countP (fun t => !isOkE t.2) = 1) :
    (test_datadog_requirements qs).1 = false ∧
    (test_datadog_requirements qs).2 = qs.map reportOf ∧
    (test_datadog_requirements qs).2.length = 5 := by
  have hspec := req_spec qs
  have hpos : 0 < qs.countP (fun t => !isOkE t.2) := by rw [h1]; norm_num
  have hall : qs.all (fun t => isOkE t.2) = false := by
    obtain ⟨t, htmem, htp⟩ := List.countP_pos_iff.mp hpos
    cases hb : qs.all (fun t => isOkE t.2) with
    | false => rfl
    | true =>
      have := List.all_eq_true.mp hb t htmem
      simp [this] at htp
  refine ⟨by rw [hspec, hall], by rw [hspec], by rw [hspec]; simp [h5]⟩

theorem requirements_single_failure_witness :
    (test_datadog_requirements reqsOneFail).1 = false ∧
    (test_datadog_requirements reqsOneFail).2 = reqsOneFail.map reportOf ∧
    (test_datadog_requirements reqsOneFail).2.length = 5 :=
  requirements_single_failure_isolated reqsOneFail (by decide) (by decide)

/-- C1 fails on the code for the monitoring group: its five telemetry
queries share a single try block, so when the first query raises, only
1 of the 5 queries of that group is executed — the remaining four are
skipped (and the report carries no per-query label). -/
theorem monitoring_abort_counterexample :
    (test_monitoring_access
      [Except.error "View not authorized", .ok 1, .ok 2, .ok 3, .ok 4]).1 =
      false ∧
    (test_monitoring_access
      [Except.error "View not authorized", .ok 1, .ok 2, .ok 3, .ok 4]).2.1 =
      1 ∧
    (test_monitoring_access
      [Except.error "View not authorized", .ok 1, .ok 2, .ok 3, .ok 4]).2.1 ≠
      5 := by
  refine ⟨rfl, rfl, by decide⟩

/-- C1 amended: in the requirements group every probe failure is caught
independently and reported with the probe's label, sibling probes still
run, and the failure only clears that group's flag; in the monitoring
group a failing query is still caught and reported and only turns that
group's flag false, but the group's remaining queries are not executed;
with both flags computed independently, the run's result is their
conjunction once the basic query has succeeded. -/
theorem query_group_isolation_amended :
    (∀ qs : List (String × Except String Nat),
        test_datadog_requirements qs =
          (qs.all (fun t => isOkE t.2), qs.map reportOf)) ∧
    (∀ (pre post : List (Except String Nat)) (m : String),
        (∀ q ∈ pre, isOkE q = true) →
        test_monitoring_access (pre ++ Except.error m :: post) =
          (false, pre.length + 1,
           pre.map monMsgOf ++ ["Monitoring access test failed: " ++ m])) ∧
    (∀ (K C : Type) (w : MainWorld K C),
        stageCfgOk w = true → (stageBasic w).isSome = true →
        (main w).1 = (monFlag w && reqFlag w)) := by
  refine ⟨req_spec, fun pre post m h => runMonitoring_first_error pre post m h, ?_⟩
  intro K C w hcfg hbasic
  unfold stageCfgOk at hcfg
  simp only [stageBasic, stageConn, stageKey, mergedCfg] at hbasic
  cases hk : (load_private_key w.fs w.keyPath w.keyPw w.der w.pem).1 with
  | none => simp [hk] at hbasic
  | some k =>
    simp only [hk, Option.some_bind] at hbasic
    cases hc : w.connect (get_configuration w.cfg w.inA w.inU w.inR w.inW).2.1 k with
    | none => simp [hc] at hbasic
    | some conn =>
      cases hb : w.basic conn with
      | none => simp [hc, hb] at hbasic
      | some r =>
        simp [main, hcfg, hk, hc, hb, monFlag, reqFlag, stageConn, stageKey,
              mergedCfg]

theorem query_group_isolation_witness :
    test_monitoring_access
      [Except.ok 120, Except.error "View not authorized", .ok 2, .ok 3, .ok 4] =
      (false, 2, ["monitoring result: 120",
                  "Monitoring access test failed: View not authorized"]) ∧
    (main wAllOk).1 = (monFlag wAllOk && reqFlag wAllOk) := by
  constructor
  · have h := query_group_isolation_amended.2.1 [Except.ok 120]
      [Except.ok 2, .ok 3, .ok 4] "View not authorized" (by decide)
    simpa [monMsgOf] using h
  · exact query_group_isolation_amended.2.2 Nat Nat wAllOk (by decide) (by decide)

/-! ## Lemmas about the configuration resolver -/

/-- C2 fails on the code: when all four fields are already non-empty
from the environment, `get_configuration` accepts the configuration
as-is and never runs the placeholder validation, so it returns success
even though every field still holds an obvious placeholder string (as
the script's own `missing` test certifies). -/
theorem config_placeholder_counterexample :
    (get_configuration cfgPlaceholder "" "" "" "").1 = true ∧
    fieldMissing "your-actual" cfgPlaceholder.account = true ∧
    fieldMissing "your_actual" cfgPlaceholder.user = true ∧
    fieldMissing "your_actual" cfgPlaceholder.role = true ∧
    fieldMissing "your_actual" cfgPlaceholder.warehouse = true ∧
    missingOf cfgPlaceholder = ["ACCOUNT", "USER", "ROLE", "WAREHOUSE"] := by
  refine ⟨rfl, by decide, by decide, by decide, by decide, by decide⟩

/-- C2 amended: when all four required fields arrive non-empty from the
environment the resolver returns success immediately, skipping the
placeholder validation; otherwise it merges the interactive answers and
returns success exactly when no merged field is empty or still holds its
placeholder string, reporting precisely the failing fields and returning
failure. -/
theorem config_validation_amended :
    (∀ (c : Config) (ia iu ir iw : String), envLoadedCfg c = true →
        get_configuration c ia iu ir iw = (true, c, [])) ∧
    (∀ (c : Config) (ia iu ir iw : String), envLoadedCfg c = false →
        get_configuration c ia iu ir iw =
          ((missingOf (mergeConfig c ia iu ir iw)).isEmpty,
           mergeConfig c ia iu ir iw,
           missingOf (mergeConfig c ia iu ir iw))) ∧
    (∀ c1 : Config,
        missingOf c1 = [] ↔
          (fieldMissing "your-actual" c1.account = false ∧
           fieldMissing "your_actual" c1.user = false ∧
           fieldMissing "your_actual" c1.role = false ∧
           fieldMissing "your_actual" c1.warehouse = false)) ∧
    (∀ c1 : Config,
        ("ACCOUNT" ∈ missingOf c1 ↔ fieldMissing "your-actual" c1.account = true) ∧
        ("USER" ∈ missingOf c1 ↔ fieldMissing "your_actual" c1.user = true) ∧
        ("ROLE" ∈ missingOf c1 ↔ fieldMissing "your_actual" c1.role = true) ∧
        ("WAREHOUSE" ∈ missingOf c1 ↔
          fieldMissing "your_actual" c1.warehouse = true)) := by
  refine ⟨?_, ?_, ?_, ?_⟩
  · intro c ia iu ir iw h
    simp [get_configuration, h]
  · intro c ia iu ir iw h
    simp only [get_configuration, h, Bool.false_eq_true, if_false]
    cases hm : missingOf (mergeConfig c ia iu ir iw) with
    | nil => simp [hm]
    | cons a as => simp [hm]
  · intro c1
    cases h1 : fieldMissing "your-actual" c1.account <;>
    cases h2 : fieldMissing "your_actual" c1.user <;>
    cases h3 : fieldMissing "your_actual" c1.role <;>
    cases h4 : fieldMissing "your_actual" c1.warehouse <;>
    simp [missingOf, h1, h2, h3, h4]
  · intro c1
    cases h1 : fieldMissing "your-actual" c1.account <;>
    cases h2 : fieldMissing "your_actual" c1.user <;>
    cases h3 : fieldMissing "your_actual" c1.role <;>
    cases h4 : fieldMissing "your_actual" c1.warehouse <;>
    simp [missingOf, h1, h2, h3, h4]

theorem config_validation_witness :
    get_configuration { account := none, user := none, role := none,
                        warehouse := none } " abc.example.com " "U" "R" "" =
      (false, { account := some "abc.example.com", user := some "U",
                role := some "R", warehouse := none }, ["WAREHOUSE"]) := by
  have h := config_validation_amended.2.1
      { account := none, user := none, role := none, warehouse := none }
      " abc.example.com " "U" "R" "" (by decide)
  rw [h]
  decide

/-! ## Claims about `main` -/

/-- C4: the process exit status is 0 iff configuration resolution, key
loading, connection and the basic identity query all succeeded and both
the monitoring-access flag and the requirements flag are true; in every
other case it is 1. -/
theorem exit_code_iff_all_stages {K C : Type} (w : MainWorld K C) :
    mainExit w = 0 ↔
      (stageCfgOk w = true ∧ (stageKey w).isSome = true ∧
       (stageConn w).isSome = true ∧ (stageBasic w).isSome = true ∧
       monFlag w = true ∧ reqFlag w = true) := by
  simp only [mainExit, main, stageCfgOk, stageKey, stageConn, stageBasic,
    monFlag, reqFlag, mergedCfg]
  by_cases hgc : (get_configuration w.cfg w.inA w.inU w.inR w.inW).1 = true
  · cases hk : (load_private_key w.fs w.keyPath w.keyPw w.der w.pem).1 with
    | none => simp [hgc, hk]
    | some k =>
      cases hc : w.connect (get_configuration w.cfg w.inA w.inU w.inR w.inW).2.1 k with
      | none => simp [hgc, hk, hc]
      | some conn =>
        cases hb : w.basic conn with
        | none => simp [hgc, hk, hc, hb]
        | some r =>
          cases hmon : (test_monitoring_access (w.monQ conn)).1 <;>
          cases hreq : (test_datadog_requirements (w.reqQ conn)).1 <;>
          simp [hgc, hk, hc, hb, hmon, hreq]
  · have hgc' : (get_configuration w.cfg w.inA w.inU w.inR w.inW).1 = false := by
      cases h : (get_configuration w.cfg w.inA w.inU w.inR w.inW).1 with
      | false => rfl
      | true => exact absurd h hgc
    simp [hgc']

/-- C8: on every run, if the network session was opened it is closed
before the run returns — both on the basic-query-failure path and on the
full path — and a run that never opens the session has nothing to
close. -/
theorem session_closed_on_all_paths {K C : Type} (w : MainWorld K C) :
    (Ev.connOpen ∈ (main w).2 → Ev.connClose ∈ (main w).2) ∧
    (Ev.connOpen ∉ (main w).2 → Ev.connClose ∉ (main w).2) := by
  by_cases hgc : (get_configuration w.cfg w.inA w.inU w.inR w.inW).1 = true
  · cases hk : (load_private_key w.fs w.keyPath w.keyPw w.der w.pem).1 with
    | none => simp [main, hgc, hk]
    | some k =>
      cases hc : w.connect (get_configuration w.cfg w.inA w.inU w.inR w.inW).2.1 k with
      | none => simp [main, hgc, hk, hc]
      | some conn =>
        cases hb : w.basic conn with
        | none => simp [main, hgc, hk, hc, hb]
        | some r => simp [main, hgc, hk, hc, hb]
  · have hgc' : (get_configuration w.cfg w.inA w.inU w.inR w.inW).1 = false := by
      cases h : (get_configuration w.cfg w.inA w.inU w.inR w.inW).1 with
      | false => rfl
      | true => exact absurd h hgc
    simp [main, hgc']

theorem session_closed_witness :
    Ev.connClose ∈ (main wAllOk).2 ∧ Ev.connClose ∉ (main wNoKey).2 :=
  ⟨(session_closed_on_all_paths wAllOk).1 (by decide),
   (session_closed_on_all_paths wNoKey).2 (by decide)⟩

end SnowflakeKeyAuth
